import Mathlib

/-!
Verification of the configuration/credential lifecycle and text-encoding
pipeline of the perplexity-cli tool (src/perplexity_cli/config.py and the
rendering fallback of src/perplexity_cli/formatters.py).

Python strings are modelled as lists of Unicode code points (`List Nat`),
byte strings as lists of byte values (`List Nat`, each below 256).  The
external library functions used by the code are embedded concretely where
their behaviour matters (json.loads, the codecs with the replace error
handler, pydantic validation of the single-field Config model), and the
Unicode NFKD normalization is taken as a function parameter about which the
theorems assume only what the Unicode standard guarantees (stability of
ASCII strings), so every statement holds for the real normalization.
-/

namespace PerplexityCli

/-- Python runtime errors that can arise in the embedded code. -/
inductive PyErr
  | typeError
  | keyError
  | valueError
  | osError
  | unicodeEncodeError
  deriving DecidableEq, Repr

/-- Values produced by Python json.loads.  Numbers keep their source lexeme
(list of code points), which is all the embedded code ever inspects. -/
inductive PyVal
  | null
  | bool (b : Bool)
  | num (lexeme : List Nat)
  | str (s : List Nat)
  | arr (xs : List PyVal)
  | obj (kvs : List (List Nat × PyVal))

/-- Python equality of a json.loads value with a given string (only a str
compares equal to a str; numbers and booleans never equal a string). -/
def pyEqStr (v : PyVal) (k : List Nat) : Bool :=
  match v with
  | .str s => decide (s = k)
  | _ => false

/-- The code points of the string literal "api_key". -/
def apiKeyStr : List Nat := [97, 112, 105, 95, 107, 101, 121]

/-- ASCII decimal digit test on a code point. -/
def isDigitCp (c : Nat) : Bool := 48 ≤ c && c ≤ 57

/-- Whether a JSON number lexeme denotes the value zero (Python float/int
truthiness: 0, -0, 0.0, 0e5 are falsy; NaN and the infinities are truthy).
The mantissa is everything before an exponent marker; the number is zero
exactly when the mantissa has a digit and all its digits are 0. -/
def numLexemeIsZero (s : List Nat) : Bool :=
  let m := s.takeWhile (fun c => c != 101 && c != 69)
  m.any isDigitCp && m.all (fun c => !isDigitCp c || c == 48)

/-- Python truthiness of a json.loads result. -/
def pyTruthy : PyVal → Bool
  | .null => false
  | .bool b => b
  | .num s => !(numLexemeIsZero s)
  | .str s => !s.isEmpty
  | .arr xs => !xs.isEmpty
  | .obj kvs => !kvs.isEmpty

/-- Dictionary lookup (objects are built with last-wins insertion, so keys
are unique and find-first is Python dict lookup). -/
def dictGet (kvs : List (List Nat × PyVal)) (k : List Nat) : Option PyVal :=
  match kvs.find? (fun p => decide (p.1 = k)) with
  | some p => some p.2
  | none => none

/-- Dictionary insertion with replacement, preserving insertion order
(Python dict assignment semantics). -/
def dictSet (kvs : List (List Nat × PyVal)) (k : List Nat) (v : PyVal) :
    List (List Nat × PyVal) :=
  match kvs with
  | [] => [(k, v)]
  | (k', v') :: rest =>
      if k' = k then (k, v) :: rest else (k', v') :: dictSet rest k v

/-- Substring test, modelling the Python `in` operator on strings. -/
def strContains (hay needle : List Nat) : Bool :=
  if needle.isPrefixOf hay then true
  else
    match hay with
    | [] => false
    | _ :: t => strContains t needle

/-- Python `key in value` for a json.loads result: dict key membership,
list element membership, substring test on strings, TypeError otherwise. -/
def pyContains (v : PyVal) (k : List Nat) : Except PyErr Bool :=
  match v with
  | .obj kvs => .ok (kvs.any (fun p => decide (p.1 = k)))
  | .arr xs => .ok (xs.any (fun x => pyEqStr x k))
  | .str s => .ok (strContains s k)
  | _ => .error .typeError

/-- Python `value[key]` with a string key: dict lookup (KeyError when
missing), TypeError on every other value. -/
def pySubscript (v : PyVal) (k : List Nat) : Except PyErr PyVal :=
  match v with
  | .obj kvs =>
      match dictGet kvs k with
      | some w => .ok w
      | none => .error .keyError
  | _ => .error .typeError

/-- Item assignment `value[key] = w` for the dict case (the embedded code
only reaches it on dicts); on any other value it is the identity. -/
def setItem (v : PyVal) (k : List Nat) (w : PyVal) : PyVal :=
  match v with
  | .obj kvs => .obj (dictSet kvs k w)
  | other => other

/-- JSON whitespace skip (space, tab, newline, carriage return), the
whitespace class of Python json. -/
def skipWs (s : List Nat) : List Nat :=
  s.dropWhile (fun c => c == 32 || c == 9 || c == 10 || c == 13)

/-- Hexadecimal digit value of a code point, if any. -/
def hexVal (c : Nat) : Option Nat :=
  if 48 ≤ c && c ≤ 57 then some (c - 48)
  else if 97 ≤ c && c ≤ 102 then some (c - 87)
  else if 65 ≤ c && c ≤ 70 then some (c - 55)
  else none

/-- Body of a JSON string after the opening quote, per the Python json
decoder in strict mode: unescaped control characters are rejected, the
escapes are quote, backslash, slash, b, f, n, r, t and uXXXX, and a high
surrogate escape immediately followed by a low surrogate escape is combined
into one supplementary code point (lone surrogates are kept as they are).
Returns the decoded code points and the input remaining after the closing
quote.  The fuel argument only makes the recursion structural; with fuel at
least the input length the parse is never cut short, since every step
consumes at least one input element. -/
def parseStringBody : Nat → List Nat → Option (List Nat × List Nat)
  | 0, _ => none
  | _, [] => none
  | fuel + 1, c :: rest =>
    if c == 34 then some ([], rest)
    else if c == 92 then
      match rest with
      | [] => none
      | e :: rest2 =>
        if e == 34 ∨ e == 92 ∨ e == 47 then
          (parseStringBody fuel rest2).map (fun p => (e :: p.1, p.2))
        else if e == 98 then (parseStringBody fuel rest2).map (fun p => (8 :: p.1, p.2))
        else if e == 102 then (parseStringBody fuel rest2).map (fun p => (12 :: p.1, p.2))
        else if e == 110 then (parseStringBody fuel rest2).map (fun p => (10 :: p.1, p.2))
        else if e == 114 then (parseStringBody fuel rest2).map (fun p => (13 :: p.1, p.2))
        else if e == 116 then (parseStringBody fuel rest2).map (fun p => (9 :: p.1, p.2))
        else if e == 117 then
          match rest2 with
          | h1 :: h2 :: h3 :: h4 :: rest3 =>
            match hexVal h1, hexVal h2, hexVal h3, hexVal h4 with
            | some d1, some d2, some d3, some d4 =>
              let cp := ((d1 * 16 + d2) * 16 + d3) * 16 + d4
              if 55296 ≤ cp ∧ cp ≤ 56319 then
                match rest3 with
                | 92 :: 117 :: g1 :: g2 :: g3 :: g4 :: rest4 =>
                  match hexVal g1, hexVal g2, hexVal g3, hexVal g4 with
                  | some f1, some f2, some f3, some f4 =>
                    let cp2 := ((f1 * 16 + f2) * 16 + f3) * 16 + f4
                    if 56320 ≤ cp2 ∧ cp2 ≤ 57343 then
                      let comb := 65536 + (cp - 55296) * 1024 + (cp2 - 56320)
                      (parseStringBody fuel rest4).map (fun p => (comb :: p.1, p.2))
                    else (parseStringBody fuel rest3).map (fun p => (cp :: p.1, p.2))
                  | _, _, _, _ =>
                      (parseStringBody fuel rest3).map (fun p => (cp :: p.1, p.2))
                | _ => (parseStringBody fuel rest3).map (fun p => (cp :: p.1, p.2))
              else (parseStringBody fuel rest3).map (fun p => (cp :: p.1, p.2))
            | _, _, _, _ => none
          | _ => none
        else none
    else if c < 32 then none
    else (parseStringBody fuel rest).map (fun p => (c :: p.1, p.2))

/-- Lexes a JSON number per the Python json number regular expression:
an optional minus, an integer part (0, or a nonzero digit followed by
digits), an optional fraction (dot and at least one digit) and an optional
exponent (e or E, optional sign, at least one digit).  Returns the lexeme
and the remaining input; the optional parts are not consumed when
incomplete, exactly as an unanchored regular expression match behaves. -/
def parseNumber (s : List Nat) : Option (List Nat × List Nat) :=
  let signAndRest : List Nat × List Nat :=
    match s with
    | 45 :: t => ([45], t)
    | _ => ([], s)
  let sign := signAndRest.1
  let s1 := signAndRest.2
  match s1 with
  | [] => none
  | c :: t =>
    if c == 48 then
      some (sign ++ [48] ++ parseFrac t, (parseFracRest t))
    else if isDigitCp c then
      let ds := t.takeWhile isDigitCp
      let t2 := t.dropWhile isDigitCp
      some (sign ++ (c :: ds) ++ parseFrac t2, parseFracRest t2)
    else none
where
  /-- fraction and exponent lexeme after the integer part -/
  parseFrac (t : List Nat) : List Nat :=
    let fr : List Nat :=
      match t with
      | 46 :: u =>
        let ds := u.takeWhile isDigitCp
        if ds.isEmpty then [] else 46 :: ds
      | _ => []
    fr ++ parseExp (t.drop fr.length)
  /-- exponent lexeme -/
  parseExp (t : List Nat) : List Nat :=
    match t with
    | e :: u =>
      if e == 101 || e == 69 then
        match u with
        | sg :: u2 =>
          if sg == 43 || sg == 45 then
            let ds := u2.takeWhile isDigitCp
            if ds.isEmpty then [] else e :: sg :: ds
          else
            let ds := u.takeWhile isDigitCp
            if ds.isEmpty then [] else e :: ds
        | [] => []
      else []
    | [] => []
  /-- remaining input after the fraction and exponent -/
  parseFracRest (t : List Nat) : List Nat :=
    t.drop (parseFrac t).length

/-- Consume a literal word, returning the rest of the input. -/
def stripLit (lit s : List Nat) : Option (List Nat) :=
  if lit.isPrefixOf s then some (s.drop lit.length) else none

mutual

/-- One JSON value at the head of the input (whitespace already skipped),
per the Python json decoder: strings, objects, arrays, the literals true,
false, null, NaN, Infinity and -Infinity, and numbers.  Returns the value
and the remaining input. -/
def parseValue : Nat → List Nat → Option (PyVal × List Nat)
  | 0, _ => none
  | _, [] => none
  | fuel + 1, c :: rest =>
    if c == 34 then
      (parseStringBody (fuel + 1) rest).map (fun p => (PyVal.str p.1, p.2))
    else if c == 123 then parseObjBody fuel (skipWs rest)
    else if c == 91 then parseArrBody fuel (skipWs rest)
    else
      match stripLit [116, 114, 117, 101] (c :: rest) with
      | some r => some (PyVal.bool true, r)
      | none =>
      match stripLit [102, 97, 108, 115, 101] (c :: rest) with
      | some r => some (PyVal.bool false, r)
      | none =>
      match stripLit [110, 117, 108, 108] (c :: rest) with
      | some r => some (PyVal.null, r)
      | none =>
      match stripLit [78, 97, 78] (c :: rest) with
      | some r => some (PyVal.num [78, 97, 78], r)
      | none =>
      match stripLit [73, 110, 102, 105, 110, 105, 116, 121] (c :: rest) with
      | some r => some (PyVal.num [73, 110, 102, 105, 110, 105, 116, 121], r)
      | none =>
      match stripLit [45, 73, 110, 102, 105, 110, 105, 116, 121] (c :: rest) with
      | some r => some (PyVal.num [45, 73, 110, 102, 105, 110, 105, 116, 121], r)
      | none =>
      if c == 45 || isDigitCp c then
        (parseNumber (c :: rest)).map (fun p => (PyVal.num p.1, p.2))
      else none

/-- The members of a JSON object after the opening brace (whitespace
skipped): either an immediate closing brace, or a comma-separated list of
string keys and values.  Duplicate keys follow Python dict semantics
(last wins). -/
def parseObjBody (fuel : Nat) (s : List Nat) : Option (PyVal × List Nat) :=
  match fuel with
  | 0 => none
  | fuel + 1 =>
    match s with
    | 125 :: rest => some (PyVal.obj [], rest)
    | _ => parseMembers fuel s []

/-- A nonempty member list of a JSON object. -/
def parseMembers (fuel : Nat) (s : List Nat) (acc : List (List Nat × PyVal)) :
    Option (PyVal × List Nat) :=
  match fuel with
  | 0 => none
  | fuel + 1 =>
    match s with
    | 34 :: r =>
      match parseStringBody (fuel + 1) r with
      | none => none
      | some (key, r2) =>
        match skipWs r2 with
        | 58 :: r4 =>
          match parseValue fuel (skipWs r4) with
          | none => none
          | some (v, r5) =>
            let acc2 := dictSet acc key v
            match skipWs r5 with
            | 44 :: r7 => parseMembers fuel (skipWs r7) acc2
            | 125 :: r7 => some (PyVal.obj acc2, r7)
            | _ => none
        | _ => none
    | _ => none

/-- The elements of a JSON array after the opening bracket (whitespace
skipped): either an immediate closing bracket or a comma-separated list of
values. -/
def parseArrBody (fuel : Nat) (s : List Nat) : Option (PyVal × List Nat) :=
  match fuel with
  | 0 => none
  | fuel + 1 =>
    match s with
    | 93 :: rest => some (PyVal.arr [], rest)
    | _ => parseElements fuel s []

/-- A nonempty element list of a JSON array (elements accumulated in
reverse). -/
def parseElements (fuel : Nat) (s : List Nat) (acc : List PyVal) :
    Option (PyVal × List Nat) :=
  match fuel with
  | 0 => none
  | fuel + 1 =>
    match parseValue fuel s with
    | none => none
    | some (v, r) =>
      match skipWs r with
      | 44 :: r2 => parseElements fuel (skipWs r2) (v :: acc)
      | 93 :: r2 => some (PyVal.arr (v :: acc).reverse, r2)
      | _ => none

end

/-- Python json.loads on a decoded text: skip surrounding whitespace, parse
one JSON value, and fail on any trailing non-whitespace (Extra data).
Failure is the None result, standing for the JSONDecodeError the inner
try/except of the caller swallows. -/
def json_loads (s : List Nat) : Option PyVal :=
  match parseValue (3 * s.length + 3) (skipWs s) with
  | some (v, rest) => if (skipWs rest).isEmpty then some v else none
  | none => none

/-- Lead byte classification for UTF-8: initial accumulator value, number
of continuation bytes, and the admissible range of the first continuation
byte (later continuations are always 128..191).  None for bytes that can
never start a sequence (stray continuations, overlong leads 192..193, and
245..255). -/
def utf8Lead (b : Nat) : Option (Nat × Nat × Nat × Nat) :=
  if 194 ≤ b && b ≤ 223 then some (b - 192, 1, 128, 191)
  else if b == 224 then some (0, 2, 160, 191)
  else if 225 ≤ b && b ≤ 236 then some (b - 224, 2, 128, 191)
  else if b == 237 then some (13, 2, 128, 159)
  else if 238 ≤ b && b ≤ 239 then some (b - 224, 2, 128, 191)
  else if b == 240 then some (0, 3, 144, 191)
  else if 241 ≤ b && b ≤ 243 then some (b - 240, 3, 128, 191)
  else if b == 244 then some (4, 3, 128, 143)
  else none

/-- Consume up to n continuation bytes, the first constrained to lo..hi.
Returns the accumulated code point and the remaining input on success, or
none together with the input starting at the offending byte (the bytes of
the valid prefix stay consumed, which is the maximal-subpart behaviour of
the CPython replace error handler). -/
def utf8Conts : Nat → Nat → Nat → Nat → List Nat → Option Nat × List Nat
  | 0, _, _, acc, l => (some acc, l)
  | _ + 1, _, _, _, [] => (none, [])
  | n + 1, lo, hi, acc, b :: rest =>
    if lo ≤ b && b ≤ hi then utf8Conts n 128 191 (acc * 64 + (b - 128)) rest
    else (none, b :: rest)

/-- UTF-8 decoding with the replace error handler: every maximal subpart of
an ill-formed sequence becomes one U+FFFD and decoding continues at the
offending byte.  Fuel-driven for structural recursion; one fuel unit covers
at least one consumed byte. -/
def utf8DecodeGo : Nat → List Nat → List Nat
  | 0, _ => []
  | _, [] => []
  | fuel + 1, b :: rest =>
    if b < 128 then b :: utf8DecodeGo fuel rest
    else
      match utf8Lead b with
      | none => 65533 :: utf8DecodeGo fuel rest
      | some (v0, n, lo, hi) =>
        match utf8Conts n lo hi v0 rest with
        | (some cp, rest2) => cp :: utf8DecodeGo fuel rest2
        | (none, rest2) => 65533 :: utf8DecodeGo fuel rest2

/-- content.decode("utf-8", errors="replace"). -/
def utf8DecodeReplace (l : List Nat) : List Nat :=
  utf8DecodeGo (l.length + 1) l

/-- The cp1252 value of a byte: the 27 printable remappings in 128..159,
U+FFFD (replace handler) for the five unassigned bytes, identity elsewhere. -/
def cp1252Map (b : Nat) : Nat :=
  if b == 128 then 8364
  else if b == 130 then 8218
  else if b == 131 then 402
  else if b == 132 then 8222
  else if b == 133 then 8230
  else if b == 134 then 8224
  else if b == 135 then 8225
  else if b == 136 then 710
  else if b == 137 then 8240
  else if b == 138 then 352
  else if b == 139 then 8249
  else if b == 140 then 338
  else if b == 142 then 381
  else if b == 145 then 8216
  else if b == 146 then 8217
  else if b == 147 then 8220
  else if b == 148 then 8221
  else if b == 149 then 8226
  else if b == 150 then 8211
  else if b == 151 then 8212
  else if b == 152 then 732
  else if b == 153 then 8482
  else if b == 154 then 353
  else if b == 155 then 8250
  else if b == 156 then 339
  else if b == 158 then 382
  else if b == 159 then 376
  else if b == 129 || b == 141 || b == 143 || b == 144 || b == 157 then 65533
  else b

/-- content.decode("cp1252", errors="replace"). -/
def cp1252Decode (l : List Nat) : List Nat := l.map cp1252Map

/-- content.decode("latin-1", errors="replace"): every byte is its own code
point, so latin-1 decoding never fails and never substitutes. -/
def latin1Decode (l : List Nat) : List Nat := l

/-- content.decode("ascii", errors="replace"): bytes at or above 128 become
U+FFFD. -/
def asciiDecodeReplace (l : List Nat) : List Nat :=
  l.map (fun b => if b < 128 then b else 65533)

/-- The candidate encodings, in the priority order of the source:
encodings = ["utf-8", "latin-1", "cp1252", "ascii"]. -/
inductive Enc
  | utf8
  | latin1
  | cp1252
  | ascii
  deriving DecidableEq, Repr

/-- content.decode(encoding, errors="replace"). -/
def decodeWith : Enc → List Nat → List Nat
  | .utf8, l => utf8DecodeReplace l
  | .latin1, l => latin1Decode l
  | .cp1252, l => cp1252Decode l
  | .ascii, l => asciiDecodeReplace l

/-- The priority list of the source. -/
def encodings : List Enc := [.utf8, .latin1, .cp1252, .ascii]

/-- UTF-8 encoding of one code point (writing, not reading: used by
save_config when the file is written back as UTF-8 text). -/
def utf8EncodeChar (c : Nat) : List Nat :=
  if c < 128 then [c]
  else if c < 2048 then [192 + c / 64, 128 + c % 64]
  else if c < 65536 then [224 + c / 4096, 128 + c / 64 % 64, 128 + c % 64]
  else [240 + c / 262144, 128 + c / 4096 % 64, 128 + c / 64 % 64, 128 + c % 64]

/-- UTF-8 encoding of a string. -/
def utf8Encode (l : List Nat) : List Nat :=
  (l.map utf8EncodeChar).flatten

/-- The pydantic model of config.py: class Config(BaseModel) with the
single field api_key: str = "". -/
structure Config where
  api_key : List Nat := []
  deriving DecidableEq, Repr

/-- sanitize_api_key of config.py, with the Unicode NFKD normalization of
unicodedata passed in as a function on code point sequences: an empty
(falsy) key yields the empty string, otherwise the key is NFKD-normalized
and every character with a code point at or above 128 is removed. -/
def sanitize_api_key (nfkd : List Nat → List Nat) (api_key : List Nat) :
    List Nat :=
  if api_key.isEmpty then []
  else (nfkd api_key).filter (fun c => decide (c < 128))

/-- Config.model_validate on a json.loads value, per pydantic v2: the input
must be a dict; extra keys are ignored; a present api_key must already be a
str (no coercion from numbers, booleans, null, lists or dicts), and an
absent api_key takes the default empty string.  The error case stands for
pydantic.ValidationError. -/
def model_validate (v : PyVal) : Except PyErr Config :=
  match v with
  | .obj kvs =>
    match dictGet kvs apiKeyStr with
    | none => .ok ⟨[]⟩
    | some (.str s) => .ok ⟨s⟩
    | some _ => .error .valueError
  | _ => .error .valueError

/-- JSON escaping of one character as the pydantic v2 serializer emits it:
quote and backslash escaped, the five short control escapes, \u00XX for the
other control characters, every other character written as itself. -/
def jsonEscapeChar (c : Nat) : List Nat :=
  if c == 34 then [92, 34]
  else if c == 92 then [92, 92]
  else if c == 8 then [92, 98]
  else if c == 12 then [92, 102]
  else if c == 10 then [92, 110]
  else if c == 13 then [92, 114]
  else if c == 9 then [92, 116]
  else if c < 32 then
    [92, 117, 48, 48,
     (if c / 16 < 10 then 48 + c / 16 else 87 + c / 16),
     (if c % 16 < 10 then 48 + c % 16 else 87 + c % 16)]
  else [c]

/-- config.model_dump_json(): the compact single-field JSON text. -/
def model_dump_json (c : Config) : List Nat :=
  [123, 34] ++ apiKeyStr ++ [34, 58, 34]
    ++ (c.api_key.map jsonEscapeChar).flatten ++ [34, 125]

/-- The filesystem state the two operations touch: the byte content of
CONFIG_FILE (none when the file does not exist) and whether CONFIG_DIR
exists. -/
structure FS where
  fileContent : Option (List Nat)
  dirExists : Bool
  deriving DecidableEq, Repr

/-- Behaviour of the filesystem during a write attempt: every operation
succeeds, or mkdir raises, or open raises (file untouched), or the write
itself raises after open has already truncated the file. -/
inductive WriteOutcome
  | ok
  | mkdirFails
  | openFails
  | writeFails
  deriving DecidableEq, Repr

/-- The outcome of save_config: the caller's Config object after the call
(save_config assigns the sanitized key into it in place), the filesystem
state, and the propagated OSError if an operation failed. -/
structure SaveResult where
  config : Config
  fs : FS
  err : Option PyErr
  deriving DecidableEq, Repr

/-- save_config of config.py: mkdir(parents=True, exist_ok=True) on
CONFIG_DIR; if the api_key is truthy, replace it in the passed object by
its sanitized form; then open CONFIG_FILE in truncating write mode and
write model_dump_json as UTF-8.  Nothing is caught, so a failing step
propagates; open truncates before the write happens. -/
def save_config (nfkd : List Nat → List Nat) (wo : WriteOutcome)
    (config : Config) (fs : FS) : SaveResult :=
  match wo with
  | .mkdirFails => ⟨config, fs, some .osError⟩
  | wo =>
    let fs1 : FS := { fs with dirExists := true }
    let config1 : Config :=
      if config.api_key.isEmpty then config
      else { config with api_key := sanitize_api_key nfkd config.api_key }
    match wo with
    | .openFails => ⟨config1, fs1, some .osError⟩
    | .writeFails => ⟨config1, { fs1 with fileContent := some [] }, some .osError⟩
    | _ => ⟨config1,
            { fs1 with fileContent := some (utf8Encode (model_dump_json config1)) },
            none⟩

/-- The encoding loop of load_config: for each encoding in order, decode
the raw bytes with the replace handler and attempt json.loads; the first
parse that does not raise wins, a failing iteration is swallowed by the
inner try/except and the loop continues. -/
def tryEncodingsLoop (content : List Nat) : List Enc → Option PyVal
  | [] => none
  | e :: rest =>
    match json_loads (decodeWith e content) with
    | some v => some v
    | none => tryEncodingsLoop content rest

/-- The config_data computed by load_config from the raw file bytes: the
encoding loop over the priority list, then the binary fallback that maps
every byte at or above 128 to an ASCII space, decodes the result as ASCII
with the replace handler and parses it. -/
def readConfigData (content : List Nat) : Option PyVal :=
  match tryEncodingsLoop content encodings with
  | some v => some v
  | none =>
    json_loads (asciiDecodeReplace
      (content.map (fun b => if b < 128 then b else 32)))

/-- The body of the outer try of load_config once the file exists: compute
config_data (a failed last-resort parse returns an empty Config from
inside the try); then, when "api_key" is contained in config_data and the
looked-up value is truthy, sanitize it (a non-str value makes
unicodedata.normalize raise TypeError) and assign it back; finally
Config.model_validate.  Error results are the exceptions the outer except
of load_config catches. -/
def loadFileData (nfkd : List Nat → List Nat) (content : List Nat) :
    Except PyErr Config :=
  match readConfigData content with
  | none => .ok ⟨[]⟩
  | some configData =>
    match pyContains configData apiKeyStr with
    | .error e => .error e
    | .ok false => model_validate configData
    | .ok true =>
      match pySubscript configData apiKeyStr with
      | .error e => .error e
      | .ok v =>
        if pyTruthy v then
          match v with
          | .str s =>
            model_validate
              (setItem configData apiKeyStr (.str (sanitize_api_key nfkd s)))
          | _ => .error .typeError
        else model_validate configData

/-- The outcome of load_config: the returned Config, the filesystem state
after the call, and whether the call read CONFIG_FILE and whether it
called mkdir on CONFIG_DIR. -/
structure LoadResult where
  config : Config
  fs : FS
  fileRead : Bool
  mkdirCalled : Bool
  deriving DecidableEq, Repr

/-- The part of load_config that runs when the environment variable is
unset or empty: creation of a fresh config file when CONFIG_FILE is
missing (mkdir and save_config outside any try, their failures propagate),
or the guarded read of the existing file. -/
def loadFromDisk (nfkd : List Nat → List Nat) (wo : WriteOutcome)
    (fs : FS) : Except PyErr LoadResult :=
  match fs.fileContent with
  | none =>
    match wo with
    | .mkdirFails => .error .osError
    | wo =>
      let sr := save_config nfkd wo ⟨[]⟩ { fs with dirExists := true }
      match sr.err with
      | some e => .error e
      | none => .ok ⟨⟨[]⟩, sr.fs, false, true⟩
  | some content =>
    match loadFileData nfkd content with
    | .ok c => .ok ⟨c, fs, true, false⟩
    | .error _ => .ok ⟨⟨[]⟩, fs, true, false⟩

/-- load_config of config.py.  A set, truthy PERPLEXITY_API_KEY environment
value is sanitized and returned at once, touching nothing; otherwise the
call falls through to the disk path. -/
def load_config (nfkd : List Nat → List Nat) (wo : WriteOutcome)
    (env : Option (List Nat)) (fs : FS) : Except PyErr LoadResult :=
  match env with
  | some k => if k.isEmpty then loadFromDisk nfkd wo fs
              else .ok ⟨⟨sanitize_api_key nfkd k⟩, fs, false, false⟩
  | none => loadFromDisk nfkd wo fs

/-- The encoding ladder as the spec words it (section 4.1 steps 3 and 4):
use the first encoding in the priority list whose replacement-substituting
decode yields syntactically valid JSON; if none does, replace every byte at
or above 128 with an ASCII space and parse the result as ASCII JSON. -/
def specEncodingLadder (content : List Nat) : Option PyVal :=
  match encodings.findSome? (fun e => json_loads (decodeWith e content)) with
  | some v => some v
  | none => json_loads (content.map (fun b => if b < 128 then b else 32))

/-- content.encode("ascii", "replace").decode("ascii") of the fallback
branch of format_response: every character at or above 128 becomes a
question mark. -/
def asciiReplaceEncode (s : List Nat) : List Nat :=
  s.map (fun c => if c < 128 then c else 63)

/-- The code points of the notice string printed by the fallback branch of
format_response, markup included. -/
def noticeLine : List Nat :=
  [91, 98, 111, 108, 100, 32, 121, 101, 108, 108, 111, 119, 93, 78, 111,
   116, 101, 58, 32, 83, 111, 109, 101, 32, 99, 104, 97, 114, 97, 99, 116,
   101, 114, 115, 32, 99, 111, 117, 108, 100, 110, 39, 116, 32, 98, 101,
   32, 100, 105, 115, 112, 108, 97, 121, 101, 100, 32, 112, 114, 111, 112,
   101, 114, 108, 121, 46, 91, 47, 98, 111, 108, 100, 32, 121, 101, 108,
   108, 111, 119, 93]

/-- console.print of one text: raises UnicodeEncodeError when the output
encoding cannot represent some character of the text (canRepr is the
per-code-point representability of the terminal encoding), otherwise emits
the text as one line. -/
def consolePrint (canRepr : Nat → Bool) (s : List Nat) :
    Except PyErr (List (List Nat)) :=
  if s.all canRepr then .ok [s] else .error .unicodeEncodeError

/-- Lines 44 to 51 of formatters.py: try to print the content; on
UnicodeEncodeError, print the one notice line and then the
ascii-with-replace version of the content.  The printed lines are
collected; any exception the branch itself does not handle is the error
case. -/
def format_response_fallback (canRepr : Nat → Bool) (content : List Nat) :
    Except PyErr (List (List Nat)) :=
  match consolePrint canRepr content with
  | .ok out => .ok out
  | .error .unicodeEncodeError =>
    let ascii_content := asciiReplaceEncode content
    match consolePrint canRepr noticeLine with
    | .error e => .error e
    | .ok o1 =>
      match consolePrint canRepr ascii_content with
      | .error e => .error e
      | .ok o2 => .ok (o1 ++ o2)
  | .error e => .error e

/-- The code points of the string "newkey123". -/
def newkey123 : List Nat := [110, 101, 119, 107, 101, 121, 49, 50, 51]

/-- Every character of a sanitized key is 7-bit. -/
theorem sanitize_all_lt (nfkd : List Nat → List Nat) (s : List Nat) :
    ∀ c ∈ sanitize_api_key nfkd s, c < 128 := by
  intro c hc
  unfold sanitize_api_key at hc
  split at hc
  · simp at hc
  · rw [List.mem_filter] at hc
    exact of_decide_eq_true hc.2

/-- A list all of whose elements are 7-bit is unchanged by the ASCII
filter of sanitize_api_key. -/
theorem filter_lt_eq_self (l : List Nat) (h : ∀ c ∈ l, c < 128) :
    l.filter (fun c => decide (c < 128)) = l := by
  rw [List.filter_eq_self]
  intro c hc
  exact decide_eq_true (h c hc)

/-- When NFKD is stable on 7-bit strings, sanitizing a 7-bit string is the
identity. -/
theorem sanitize_of_ascii (nfkd : List Nat → List Nat)
    (hN : ∀ l, (∀ c ∈ l, c < 128) → nfkd l = l)
    (s : List Nat) (h : ∀ c ∈ s, c < 128) :
    sanitize_api_key nfkd s = s := by
  unfold sanitize_api_key
  split
  · rename_i he
    rw [List.isEmpty_iff] at he
    exact he.symm
  · rw [hN s h]
    exact filter_lt_eq_self s h

/-- Dictionary lookup after insertion of the same key. -/
theorem dictGet_dictSet (kvs : List (List Nat × PyVal)) (k : List Nat)
    (v : PyVal) : dictGet (dictSet kvs k v) k = some v := by
  induction kvs with
  | nil => simp [dictSet, dictGet, List.find?]
  | cons p rest ih =>
    obtain ⟨k', v'⟩ := p
    unfold dictSet
    by_cases h : k' = k
    · simp [h, dictGet, List.find?]
    · simp only [if_neg h]
      unfold dictGet
      unfold dictGet at ih
      simp only [List.find?]
      rw [decide_eq_false h]
      exact ih

/-- A dict that does not contain the key looks it up to nothing. -/
theorem dictGet_eq_none_of_not_any (kvs : List (List Nat × PyVal))
    (k : List Nat) (h : kvs.any (fun p => decide (p.1 = k)) = false) :
    dictGet kvs k = none := by
  unfold dictGet
  rw [List.find?_eq_none.mpr]
  intro p hp
  have := List.any_eq_false.mp h p hp
  simpa using this

/-- A dict that contains the key looks it up to something. -/
theorem dictGet_isSome_of_any (kvs : List (List Nat × PyVal))
    (k : List Nat) (h : kvs.any (fun p => decide (p.1 = k)) = true) :
    (dictGet kvs k).isSome = true := by
  unfold dictGet
  obtain ⟨p, hp, hpk⟩ := List.any_eq_true.mp h
  cases hf : kvs.find? (fun p => decide (p.1 = k)) with
  | some q => rfl
  | none => exact absurd hpk (List.find?_eq_none.mp hf p hp)

/-- Whatever the file bytes, when the body of the outer try of load_config
completes without an exception, the key it produces is 7-bit. -/
theorem loadFileData_ascii (nfkd : List Nat → List Nat) (content : List Nat)
    (c : Config) (h : loadFileData nfkd content = .ok c) :
    ∀ ch ∈ c.api_key, ch < 128 := by
  unfold loadFileData at h
  cases hr : readConfigData content with
  | none =>
    rw [hr] at h
    simp only [Except.ok.injEq] at h
    subst h
    simp
  | some cd =>
    rw [hr] at h
    cases cd with
    | null => simp [pyContains] at h
    | bool b => simp [pyContains] at h
    | num l => simp [pyContains] at h
    | str s =>
      cases hc : strContains s apiKeyStr <;>
        simp [pyContains, hc, pySubscript, model_validate] at h
    | arr xs =>
      cases hc : xs.any (fun x => pyEqStr x apiKeyStr) <;>
        simp [pyContains, hc, pySubscript, model_validate] at h
    | obj kvs =>
      cases hb : kvs.any (fun p => decide (p.1 = apiKeyStr)) with
      | false =>
        have hd := dictGet_eq_none_of_not_any kvs apiKeyStr hb
        simp [pyContains, hb, model_validate, hd] at h
        subst h
        simp
      | true =>
        have hs := dictGet_isSome_of_any kvs apiKeyStr hb
        cases hd : dictGet kvs apiKeyStr with
        | none => rw [hd] at hs; cases hs
        | some v =>
          simp only [pyContains, hb, pySubscript, hd] at h
          cases v with
          | str s =>
            by_cases ht : s.isEmpty
            · rw [List.isEmpty_iff] at ht
              subst ht
              simp [pyTruthy, model_validate, hd] at h
              subst h
              simp
            · have ht2 : pyTruthy (.str s) = true := by
                simp [pyTruthy, ht]
              rw [ht2] at h
              simp only [if_true, setItem, model_validate,
                dictGet_dictSet, Except.ok.injEq] at h
              subst h
              exact sanitize_all_lt nfkd s
          | null => simp [pyTruthy, model_validate, hd] at h
          | bool b =>
            cases b <;> simp [pyTruthy, model_validate, hd] at h
          | num l =>
            split at h <;> simp [model_validate, hd] at h
          | arr ys =>
            split at h <;> simp [model_validate, hd] at h
          | obj ws =>
            split at h <;> simp [model_validate, hd] at h

/-- The disk path on an existing file always completes with a Config. -/
theorem loadFromDisk_existing_ok (nfkd : List Nat → List Nat)
    (wo : WriteOutcome) (content : List Nat) (dirE : Bool) :
    ∃ r, loadFromDisk nfkd wo ⟨some content, dirE⟩ = .ok r := by
  unfold loadFromDisk
  cases hl : loadFileData nfkd content with
  | ok c =>
    exact ⟨⟨c, ⟨some content, dirE⟩, true, false⟩, by dsimp only; rw [hl]⟩
  | error e =>
    exact ⟨⟨⟨[]⟩, ⟨some content, dirE⟩, true, false⟩, by dsimp only; rw [hl]⟩

/-- C1: for every byte content of the credential file (truncated JSON,
invalid UTF-8, valid JSON of the wrong shape, empty file, binary garbage)
and every state of the environment variable, load_config returns a Config
and no exception escapes: every internal failure is caught and degrades. -/
theorem load_config_never_raises_on_existing_file
    (nfkd : List Nat → List Nat) (wo : WriteOutcome)
    (env : Option (List Nat)) (content : List Nat) (dirE : Bool) :
    ∃ r, load_config nfkd wo env ⟨some content, dirE⟩ = .ok r := by
  unfold load_config
  cases env with
  | none => exact loadFromDisk_existing_ok nfkd wo content dirE
  | some k =>
    by_cases hk : k.isEmpty
    · simp only [hk, if_true]
      exact loadFromDisk_existing_ok nfkd wo content dirE
    · exact ⟨⟨⟨sanitize_api_key nfkd k⟩, ⟨some content, dirE⟩, false, false⟩,
        by simp [hk]⟩

/-- C2: every credential string returned by load_config, on every path
(environment variable, file read under any encoding, byte repair, or
default), contains only code points below 128. -/
theorem load_config_returns_ascii_only (nfkd : List Nat → List Nat)
    (wo : WriteOutcome) (env : Option (List Nat)) (fs : FS) (r : LoadResult)
    (h : load_config nfkd wo env fs = .ok r) :
    r.config.api_key.all (fun c => decide (c < 128)) = true := by
  rw [List.all_eq_true]
  suffices hsuff : ∀ ch ∈ r.config.api_key, ch < 128 by
    intro c hc
    exact decide_eq_true (hsuff c hc)
  obtain ⟨fc, dirE⟩ := fs
  have hdisk : ∀ r0 : LoadResult, loadFromDisk nfkd wo ⟨fc, dirE⟩ = .ok r0 →
      ∀ ch ∈ r0.config.api_key, ch < 128 := by
    intro r0 h0
    cases fc with
    | none =>
      cases wo with
      | mkdirFails => exact absurd h0 (by intro hh; cases hh)
      | ok =>
        have hc : loadFromDisk nfkd .ok ⟨none, dirE⟩ =
            .ok ⟨⟨[]⟩, ⟨some (utf8Encode (model_dump_json ⟨[]⟩)), true⟩,
                 false, true⟩ := rfl
        rw [hc] at h0
        injection h0 with h0
        subst h0
        simp
      | openFails => exact absurd h0 (by intro hh; cases hh)
      | writeFails => exact absurd h0 (by intro hh; cases hh)
    | some content =>
      cases hl : loadFileData nfkd content with
      | ok c =>
        have hc : loadFromDisk nfkd wo ⟨some content, dirE⟩ =
            .ok ⟨c, ⟨some content, dirE⟩, true, false⟩ := by
          unfold loadFromDisk
          dsimp only
          rw [hl]
        rw [hc] at h0
        injection h0 with h0
        subst h0
        exact loadFileData_ascii nfkd content c hl
      | error e =>
        have hc : loadFromDisk nfkd wo ⟨some content, dirE⟩ =
            .ok ⟨⟨[]⟩, ⟨some content, dirE⟩, true, false⟩ := by
          unfold loadFromDisk
          dsimp only
          rw [hl]
        rw [hc] at h0
        injection h0 with h0
        subst h0
        simp
  cases env with
  | none => exact hdisk r h
  | some k =>
    have hcomp : load_config nfkd wo (some k) ⟨fc, dirE⟩ =
        if k.isEmpty then loadFromDisk nfkd wo ⟨fc, dirE⟩
        else .ok ⟨⟨sanitize_api_key nfkd k⟩, ⟨fc, dirE⟩, false, false⟩ := rfl
    rw [hcomp] at h
    by_cases hk : k.isEmpty
    · rw [if_pos hk] at h
      exact hdisk r h
    · rw [if_neg hk] at h
      injection h with h
      subst h
      exact sanitize_all_lt nfkd k

/-- Witness for C2 at a concrete call: environment key "h", U+00E9, "l"
sanitizes (with the identity standing for NFKD) to the 7-bit "hl". -/
theorem load_config_returns_ascii_only_witness :
    (([104, 108] : List Nat).all (fun c => decide (c < 128))) = true :=
  load_config_returns_ascii_only (fun l => l) .ok (some [104, 233, 108])
    ⟨none, false⟩ ⟨⟨[104, 108]⟩, ⟨none, false⟩, false, false⟩ rfl

/-- The for loop over the encodings equals first-success over the list. -/
theorem tryEncodingsLoop_eq_findSome (content : List Nat) (l : List Enc) :
    tryEncodingsLoop content l =
      l.findSome? (fun e => json_loads (decodeWith e content)) := by
  induction l with
  | nil => rfl
  | cons e rest ih =>
    unfold tryEncodingsLoop
    rw [List.findSome?_cons]
    cases json_loads (decodeWith e content) with
    | some v => rfl
    | none => exact ih

/-- The ASCII decode with replacement is the identity on the byte-repaired
content, whose bytes are all below 128. -/
theorem asciiDecodeReplace_repair (l : List Nat) :
    asciiDecodeReplace (l.map (fun b => if b < 128 then b else 32)) =
      l.map (fun b => if b < 128 then b else 32) := by
  unfold asciiDecodeReplace
  rw [List.map_map]
  apply List.map_congr_left
  intro b _
  by_cases hb : b < 128
  · simp [hb]
  · simp [hb]

/-- C3: the file-read path computes exactly the spec ladder — the first
encoding in the priority list whose replacement-substituting decode parses
as JSON, then the space-for-high-bytes repair parsed as ASCII JSON — and
when the ladder fails entirely, load_config returns the empty credential
without reading the environment or raising. -/
theorem encoding_ladder_matches_spec (content : List Nat) :
    readConfigData content = specEncodingLadder content ∧
    (∀ (nfkd : List Nat → List Nat) (wo : WriteOutcome) (dirE : Bool),
      readConfigData content = none →
      load_config nfkd wo none ⟨some content, dirE⟩ =
        .ok ⟨⟨[]⟩, ⟨some content, dirE⟩, true, false⟩) := by
  constructor
  · unfold readConfigData specEncodingLadder
    rw [tryEncodingsLoop_eq_findSome, asciiDecodeReplace_repair]
  · intro nfkd wo dirE hnone
    have hl : loadFileData nfkd content = .ok ⟨[]⟩ := by
      unfold loadFileData
      rw [hnone]
    show loadFromDisk nfkd wo ⟨some content, dirE⟩ = _
    unfold loadFromDisk
    dsimp only
    rw [hl]

/-- Witness for C3: the one-byte file content consisting of an opening
brace fails every encoding and the repair, and load_config degrades to the
empty credential. -/
theorem encoding_ladder_matches_spec_witness :
    load_config (fun l => l) .ok none ⟨some [123], true⟩ =
      .ok ⟨⟨[]⟩, ⟨some [123], true⟩, true, false⟩ :=
  (encoding_ladder_matches_spec [123]).2 (fun l => l) .ok true rfl

/-- The environment path of load_config, computed. -/
theorem load_config_env_truthy (nfkd : List Nat → List Nat)
    (wo : WriteOutcome) (k : List Nat) (fs : FS)
    (h : k.isEmpty = false) :
    load_config nfkd wo (some k) fs =
      .ok ⟨⟨sanitize_api_key nfkd k⟩, fs, false, false⟩ := by
  unfold load_config
  dsimp only
  rw [h]
  rfl

/-- C5: with the environment variable set and non-empty, load_config
returns its sanitized value immediately; the file is not read, nothing is
written, and the directory is not created. -/
theorem env_path_returns_immediately (nfkd : List Nat → List Nat)
    (wo : WriteOutcome) (k : List Nat) (fs : FS)
    (h : k.isEmpty = false) :
    load_config nfkd wo (some k) fs =
      .ok ⟨⟨sanitize_api_key nfkd k⟩, fs, false, false⟩ :=
  load_config_env_truthy nfkd wo k fs h

/-- Witness for C5 at the concrete environment value "key1". -/
theorem env_path_returns_immediately_witness :
    load_config (fun l => l) .ok (some [107, 101, 121, 49])
        ⟨some [104, 105], true⟩ =
      .ok ⟨⟨[107, 101, 121, 49]⟩, ⟨some [104, 105], true⟩, false, false⟩ :=
  env_path_returns_immediately (fun l => l) .ok [107, 101, 121, 49]
    ⟨some [104, 105], true⟩ rfl

/-- C9: when the environment value is non-empty but sanitization strips
every character, load_config returns the empty credential from the
environment path and never consults the file, whatever the file holds. -/
theorem env_path_empty_sanitization_shadows_file
    (nfkd : List Nat → List Nat) (wo : WriteOutcome) (k : List Nat) (fs : FS)
    (h : k.isEmpty = false) (hs : sanitize_api_key nfkd k = []) :
    load_config nfkd wo (some k) fs = .ok ⟨⟨[]⟩, fs, false, false⟩ := by
  rw [load_config_env_truthy nfkd wo k fs h, hs]

/-- Witness for C9: the environment value U+00E9 sanitizes (identity
standing for NFKD) to nothing, while the file holds api_key "abc". -/
theorem env_path_empty_sanitization_shadows_file_witness :
    load_config (fun l => l) .ok (some [233])
        ⟨some [123, 34, 97, 112, 105, 95, 107, 101, 121, 34, 58, 34, 97,
               98, 99, 34, 125], true⟩ =
      .ok ⟨⟨[]⟩,
           ⟨some [123, 34, 97, 112, 105, 95, 107, 101, 121, 34, 58, 34, 97,
                  98, 99, 34, 125], true⟩, false, false⟩ :=
  env_path_empty_sanitization_shadows_file (fun l => l) .ok [233]
    ⟨some [123, 34, 97, 112, 105, 95, 107, 101, 121, 34, 58, 34, 97, 98,
           99, 34, 125], true⟩ rfl rfl

/-- C7: sanitize_api_key is idempotent, for any normalization function that
is stable on 7-bit strings (Unicode NFKD is: every ASCII character is
normalization-inert). -/
theorem sanitize_api_key_idempotent (nfkd : List Nat → List Nat)
    (hN : ∀ l, (∀ c ∈ l, c < 128) → nfkd l = l) (s : List Nat) :
    sanitize_api_key nfkd (sanitize_api_key nfkd s) =
      sanitize_api_key nfkd s :=
  sanitize_of_ascii nfkd hN (sanitize_api_key nfkd s) (sanitize_all_lt nfkd s)

/-- Witness for C7 at the concrete string "a", U+00E9 with the identity
standing for NFKD. -/
theorem sanitize_api_key_idempotent_witness :
    sanitize_api_key (fun l => l) (sanitize_api_key (fun l => l) [97, 233]) =
      sanitize_api_key (fun l => l) [97, 233] :=
  sanitize_api_key_idempotent (fun l => l) (fun _ _ => rfl) [97, 233]

/-- C10: save_config writes the sanitized key back into the Config object
passed by the caller: whenever the key is non-empty and the call gets past
the directory creation, the caller's object afterwards holds the sanitized
form of its original key. -/
theorem save_config_mutates_config_in_place (nfkd : List Nat → List Nat)
    (wo : WriteOutcome) (c : Config) (fs : FS)
    (h1 : c.api_key.isEmpty = false) (h2 : wo ≠ .mkdirFails) :
    (save_config nfkd wo c fs).config = ⟨sanitize_api_key nfkd c.api_key⟩ := by
  cases wo with
  | mkdirFails => exact absurd rfl h2
  | ok => unfold save_config; dsimp only; rw [h1]; rfl
  | openFails => unfold save_config; dsimp only; rw [h1]; rfl
  | writeFails => unfold save_config; dsimp only; rw [h1]; rfl

/-- Witness for C10: the caller's object holds "k" after saving "k",
U+00E9 (identity standing for NFKD). -/
theorem save_config_mutates_config_in_place_witness :
    (save_config (fun l => l) .ok ⟨[107, 233]⟩ ⟨none, false⟩).config =
      ⟨[107]⟩ :=
  save_config_mutates_config_in_place (fun l => l) .ok ⟨[107, 233]⟩
    ⟨none, false⟩ rfl (by intro hh; cases hh)

/-- C4: saving the ASCII credential "newkey123" succeeds and a subsequent
load_config with the environment variable unset returns exactly
"newkey123", for any NFKD stable on 7-bit strings and any prior state of
the file. -/
theorem save_then_load_roundtrip (nfkd : List Nat → List Nat)
    (hN : ∀ l, (∀ c ∈ l, c < 128) → nfkd l = l)
    (wo : WriteOutcome) (fs0 : FS) :
    (save_config nfkd .ok ⟨newkey123⟩ fs0).err = none ∧
    load_config nfkd wo none (save_config nfkd .ok ⟨newkey123⟩ fs0).fs =
      .ok ⟨⟨newkey123⟩, (save_config nfkd .ok ⟨newkey123⟩ fs0).fs,
           true, false⟩ := by
  have hsan : sanitize_api_key nfkd newkey123 = newkey123 :=
    sanitize_of_ascii nfkd hN newkey123 (by decide)
  have hsave : save_config nfkd .ok ⟨newkey123⟩ fs0 =
      ⟨⟨sanitize_api_key nfkd newkey123⟩,
       ⟨some (utf8Encode (model_dump_json
          ⟨sanitize_api_key nfkd newkey123⟩)), true⟩, none⟩ := rfl
  rw [hsave, hsan]
  refine ⟨rfl, ?_⟩
  have hload : loadFileData nfkd (utf8Encode (model_dump_json ⟨newkey123⟩)) =
      .ok ⟨sanitize_api_key nfkd newkey123⟩ := rfl
  dsimp only
  show loadFromDisk nfkd wo
      ⟨some (utf8Encode (model_dump_json ⟨newkey123⟩)), true⟩ = _
  unfold loadFromDisk
  dsimp only
  rw [hload, hsan]

/-- Witness for C4 at the identity normalization and an initially missing
file. -/
theorem save_then_load_roundtrip_witness :
    (save_config (fun l => l) .ok ⟨newkey123⟩ ⟨none, false⟩).err = none ∧
    load_config (fun l => l) .ok none
        (save_config (fun l => l) .ok ⟨newkey123⟩ ⟨none, false⟩).fs =
      .ok ⟨⟨newkey123⟩,
           (save_config (fun l => l) .ok ⟨newkey123⟩ ⟨none, false⟩).fs,
           true, false⟩ :=
  save_then_load_roundtrip (fun l => l) (fun _ _ => rfl) .ok ⟨none, false⟩

/-- C6, counterexample: save_config opens CONFIG_FILE in truncating write
mode before writing, so when the write itself fails (for instance a full
disk after a successful open) the error does propagate, but the file that
previously held the two bytes "hi" is left truncated to empty — a worse
state than before the write attempt, against the claim. -/
theorem save_config_failed_write_truncates_counterexample :
    (save_config (fun l => l) .writeFails ⟨[107]⟩
        ⟨some [104, 105], true⟩).err.isSome = true ∧
    (save_config (fun l => l) .writeFails ⟨[107]⟩
        ⟨some [104, 105], true⟩).fs.fileContent = some [] ∧
    some ([] : List Nat) ≠ some [104, 105] := by
  refine ⟨rfl, rfl, ?_⟩
  intro hh
  cases hh

/-- C6, amended: a failing save_config propagates the error in every case
(nothing is caught); a failure of the directory creation leaves the file
untouched, and a failure of the open leaves the file content untouched,
but a failure during the write itself leaves the file truncated to empty,
because the truncating open has already happened. -/
theorem save_config_error_propagation_amended (nfkd : List Nat → List Nat)
    (c : Config) (fs : FS) (wo : WriteOutcome) :
    ((save_config nfkd wo c fs).err.isSome = true ↔ wo ≠ .ok) ∧
    (wo = .mkdirFails → (save_config nfkd wo c fs).fs = fs) ∧
    (wo = .openFails →
      (save_config nfkd wo c fs).fs.fileContent = fs.fileContent) ∧
    (wo = .writeFails →
      (save_config nfkd wo c fs).fs.fileContent = some []) := by
  cases wo with
  | ok =>
    exact ⟨⟨fun hh => Bool.noConfusion hh, fun hh => absurd rfl hh⟩,
           fun hh => WriteOutcome.noConfusion hh,
           fun hh => WriteOutcome.noConfusion hh,
           fun hh => WriteOutcome.noConfusion hh⟩
  | mkdirFails =>
    exact ⟨⟨fun _ hh => WriteOutcome.noConfusion hh, fun _ => rfl⟩,
           fun _ => rfl,
           fun hh => WriteOutcome.noConfusion hh,
           fun hh => WriteOutcome.noConfusion hh⟩
  | openFails =>
    exact ⟨⟨fun _ hh => WriteOutcome.noConfusion hh, fun _ => rfl⟩,
           fun hh => WriteOutcome.noConfusion hh,
           fun _ => rfl,
           fun hh => WriteOutcome.noConfusion hh⟩
  | writeFails =>
    exact ⟨⟨fun _ hh => WriteOutcome.noConfusion hh, fun _ => rfl⟩,
           fun hh => WriteOutcome.noConfusion hh,
           fun hh => WriteOutcome.noConfusion hh,
           fun _ => rfl⟩

/-- Witness for the amended C6 at a concrete failing write over a file
that held "hi". -/
theorem save_config_error_propagation_amended_witness :
    (save_config (fun l => l) .writeFails ⟨[]⟩
        ⟨some [104, 105], true⟩).fs.fileContent = some [] :=
  (save_config_error_propagation_amended (fun l => l) ⟨[]⟩
    ⟨some [104, 105], true⟩ .writeFails).2.2.2 rfl

/-- Notice text and ascii-replaced text are 7-bit. -/
theorem asciiReplaceEncode_all_lt (s : List Nat) :
    ∀ c ∈ asciiReplaceEncode s, c < 128 := by
  intro c hc
  unfold asciiReplaceEncode at hc
  rw [List.mem_map] at hc
  obtain ⟨b, _, rfl⟩ := hc
  by_cases hb : b < 128
  · simp [hb]
  · simp [hb]

/-- C8: given content with a character the output encoding cannot
represent, the fallback branch of format_response never raises: it prints
exactly one notice line followed by the content with one question mark in
place of each character at or above 128, and everything printed is 7-bit.
The only assumption on the terminal encoding is that it can represent
7-bit characters. -/
theorem format_response_fallback_safe (canRepr : Nat → Bool)
    (content : List Nat)
    (hAscii : ∀ c, c < 128 → canRepr c = true)
    (hBad : content.all canRepr = false) :
    format_response_fallback canRepr content =
      .ok [noticeLine, asciiReplaceEncode content] ∧
    (noticeLine ++ asciiReplaceEncode content).all
      (fun c => decide (c < 128)) = true := by
  have hnote : noticeLine.all canRepr = true := by
    rw [List.all_eq_true]
    intro c hc
    refine hAscii c ?_
    have : noticeLine.all (fun c => decide (c < 128)) = true := by decide
    exact of_decide_eq_true (List.all_eq_true.mp this c hc)
  have hasc : (asciiReplaceEncode content).all canRepr = true := by
    rw [List.all_eq_true]
    intro c hc
    exact hAscii c (asciiReplaceEncode_all_lt content c hc)
  constructor
  · unfold format_response_fallback consolePrint
    dsimp only
    rw [hBad, hnote, hasc]
    rfl
  · rw [List.all_append, Bool.and_eq_true]
    refine ⟨by decide, ?_⟩
    rw [List.all_eq_true]
    intro c hc
    exact decide_eq_true (asciiReplaceEncode_all_lt content c hc)

/-- Witness for C8: under an ASCII-only terminal, the content "H", U+00E9
prints as the notice line plus "H?". -/
theorem format_response_fallback_safe_witness :
    format_response_fallback (fun c => decide (c < 128)) [72, 233] =
      .ok [noticeLine, [72, 63]] :=
  (format_response_fallback_safe (fun c => decide (c < 128)) [72, 233]
    (fun _ hc => decide_eq_true hc) rfl).1

end PerplexityCli
